import Mathlib

/-!
Reliability Layer — a shallow embedding of `src/android/app/src/services/reliability.ts`
(the `ReliabilityLayer` class): queueing of pending operations while
offline, immediate execution with enqueue-on-failure while online,
and the sync pass that drains the queue with priority ordering,
exponential backoff and a retry ceiling.

Modelling conventions:
* JS `Date.now()` timestamps are `Int` (epoch milliseconds); all
  timestamp arithmetic in the source is plain subtraction/comparison.
* The remote transport (`api.post` / `api.put` / `api.delete`) is a
  parameter: a single call's outcome for `performOperation`, a function
  from the operation to an outcome for a sync pass.  An outcome is
  either an HTTP-style response `{status, data?, error?}` or a thrown
  error (`thrown`), mirroring the `try/catch` in the source.
* `AsyncStorage.setItem` (`savePendingOperations`) either succeeds,
  replacing the durable store with the current queue, or fails; the
  source catches the failure and keeps going, so a save is modelled by
  a `saveOk : Bool` parameter deciding whether the store is updated.
* The opaque JS values (`body`, response `data`) are `String`s.
-/

namespace SyncFit

/-- HTTP verbs accepted by `performOperation` (`'POST' | 'PUT' | 'DELETE'`). -/
inductive Method
  | post
  | put
  | delete
deriving DecidableEq, Repr

/-- Operation priority (`'high' | 'medium' | 'low'`). -/
inductive Priority
  | high
  | medium
  | low
deriving DecidableEq, Repr

/-- Source `interface PendingOperation` from reliability.ts. -/
structure PendingOperation where
  id : String
  endpoint : String
  method : Method
  body : String
  timestamp : Int
  retryCount : Nat
  priority : Priority
deriving DecidableEq, Repr

/-- Source `const MAX_RETRY_ATTEMPTS = 5`. -/
def MAX_RETRY_ATTEMPTS : Nat := 5

/-- Source `const RETRY_BACKOFF_MS = 1000`. -/
def RETRY_BACKOFF_MS : Int := 1000

/-- Outcome of one transport call: an HTTP-style response
`{status, data?, error?}`, or a thrown error.  A thrown `Error` carries
`some message`; a thrown non-`Error` value carries `none` (the source
distinguishes the two with `error instanceof Error`). -/
inductive TransportOutcome
  | resp (status : Int) (data : Option String) (error : Option String)
  | thrown (msg : Option String)
deriving DecidableEq, Repr

/-- Success test `result.status >= 200 && result.status < 300`; a thrown call is
never a success. -/
def TransportOutcome.isSuccess : TransportOutcome → Bool
  | .resp status _ _ => decide (200 ≤ status ∧ status < 300)
  | .thrown _ => false

/-- The `options` argument of `performOperation`, with its defaults
already resolved (`priority = 'medium'`, `offlineSupport = true`). -/
structure OpOptions where
  priority : Priority
  offlineSupport : Bool
  syncTarget : Option String
deriving DecidableEq, Repr

/-- The result shape `{success, data?, error?, queued?}` returned by
`performOperation`. -/
structure OperationResult where
  success : Bool
  data : Option String
  error : Option String
  queued : Option Bool
deriving DecidableEq, Repr

/-- The mutable fields of the `ReliabilityLayer` singleton, together
with the durable store (`AsyncStorage` under `PENDING_OPERATIONS_KEY`)
and the local Firestore mirror (abstracted as a list of
(collection, data) upserts). -/
structure RState where
  isOnline : Bool
  pendingOperations : List PendingOperation
  syncInProgress : Bool
  lastSyncAttempt : Int
  store : List PendingOperation
  mirror : List (String × String)
deriving DecidableEq, Repr

/-- Save step `savePendingOperations`: on success the store becomes the queue;
on failure the error is caught and the store keeps its old value. -/
def doSave (saveOk : Bool) (q store : List PendingOperation) : List PendingOperation :=
  if saveOk then q else store

/-- JS `e || 'fallback'` on an optional error string (`undefined` and
`""` are both falsy). -/
def orElseStr (e : Option String) (d : String) : String :=
  match e with
  | some s => if s = "" then d else s
  | none => d

/-- The `PendingOperation` literal built inside `performOperation`:
`{id, endpoint, method, body, timestamp: Date.now(), retryCount: 0, priority}`. -/
def mkPendingOperation (opId endpoint : String) (method : Method) (body : String)
    (now : Int) (priority : Priority) : PendingOperation :=
  { id := opId, endpoint := endpoint, method := method, body := body,
    timestamp := now, retryCount := 0, priority := priority }

/-- Operation `performOperation(endpoint, method, body, options)`.

Parameters beyond the source signature supply the environment of the
call: `opId` the generated unique id, `now` the `Date.now()` reading,
`outcome` what the single transport call would return if made,
`mirrorOk` whether the best-effort local-mirror upsert would succeed
(its failure is caught inside `updateLocalMirror`), `saveOk` whether
the durable save would succeed.  Returns the updated state and the
`{success, data?, error?, queued?}` result. -/
def performOperation (st : RState) (endpoint : String) (method : Method) (body : String)
    (opts : OpOptions) (opId : String) (now : Int) (outcome : TransportOutcome)
    (mirrorOk : Bool) (saveOk : Bool) : RState × OperationResult :=
  if !st.isOnline && opts.offlineSupport then
    -- offline branch: queue the operation, persist, return queued
    let pendingOp := mkPendingOperation opId endpoint method body now opts.priority
    let q := st.pendingOperations ++ [pendingOp]
    ({ st with pendingOperations := q, store := doSave saveOk q st.store },
     { success := false, data := none, error := none, queued := some true })
  else
    match outcome with
    | .resp status data error =>
      if 200 ≤ status ∧ status < 300 then
        -- success: best-effort mirror update, never failing the operation
        let newMirror :=
          match opts.syncTarget, data with
          | some t, some d => if mirrorOk then (t, d) :: st.mirror else st.mirror
          | _, _ => st.mirror
        ({ st with mirror := newMirror },
         { success := true, data := data, error := none, queued := none })
      else
        -- server error: enqueue for retry when offlineSupport, report error
        if opts.offlineSupport then
          let pendingOp := mkPendingOperation opId endpoint method body now opts.priority
          let q := st.pendingOperations ++ [pendingOp]
          ({ st with pendingOperations := q, store := doSave saveOk q st.store },
           { success := false, data := none,
             error := some (orElseStr error "Server error"), queued := none })
        else
          (st, { success := false, data := none,
                 error := some (orElseStr error "Server error"), queued := none })
    | .thrown msg =>
      -- network/client error: enqueue for retry when offlineSupport, report error
      if opts.offlineSupport then
        let pendingOp := mkPendingOperation opId endpoint method body now opts.priority
        let q := st.pendingOperations ++ [pendingOp]
        ({ st with pendingOperations := q, store := doSave saveOk q st.store },
         { success := false, data := none,
           error := some (msg.getD "Network error"), queued := none })
      else
        (st, { success := false, data := none,
               error := some (msg.getD "Network error"), queued := none })

/-- Table `priorityOrder = { high: 0, medium: 1, low: 2 }` inside the sort
comparator. -/
def priorityOrder : Priority → Nat
  | .high => 0
  | .medium => 1
  | .low => 2

/-- The JS sort comparator of `syncPendingOperations`: priority
difference when priorities differ, else timestamp difference. -/
def syncCompare (a b : PendingOperation) : Int :=
  if priorityOrder a.priority ≠ priorityOrder b.priority then
    (priorityOrder a.priority : Int) - (priorityOrder b.priority : Int)
  else
    a.timestamp - b.timestamp

/-- The comparator as a relation: `a` sorts no later than `b`. -/
def compLe (a b : PendingOperation) : Prop := syncCompare a b ≤ 0

instance : DecidableRel compLe := fun a b => by
  unfold compLe
  infer_instance

/-- Sort step `this.pendingOperations.sort(comparator)`: a stable sort by the
comparator (JS `Array.prototype.sort` is stable; any stable
structurally-recursive sort by the same total preorder is an exact
model, and insertion sort makes the definition computable by the
kernel). -/
def sortPending (l : List PendingOperation) : List PendingOperation :=
  List.insertionSort compLe l

/-- What one iteration of the sync loop does to one operation. -/
structure StepResult where
  newOp : PendingOperation
  attempted : Bool
  succeeded : Bool
  failedMark : Bool
deriving DecidableEq, Repr

/-- Delay `backoffDelay = RETRY_BACKOFF_MS * Math.pow(2, operation.retryCount)`. -/
def backoffDelay (rc : Nat) : Int := RETRY_BACKOFF_MS * 2 ^ rc

/-- One iteration of the `for (const operation of operationsToProcess)`
loop: drop-without-attempt above the retry ceiling, skip inside the
backoff window, otherwise attempt; a failed attempt increments
`retryCount`, sets `timestamp = now`, and marks the operation failed
when the ceiling is reached. -/
def stepOp (transport : PendingOperation → TransportOutcome) (now : Int)
    (op : PendingOperation) : StepResult :=
  if MAX_RETRY_ATTEMPTS ≤ op.retryCount then
    { newOp := op, attempted := false, succeeded := false, failedMark := true }
  else if 0 < op.retryCount ∧ now - op.timestamp < backoffDelay op.retryCount then
    { newOp := op, attempted := false, succeeded := false, failedMark := false }
  else if (transport op).isSuccess then
    { newOp := op, attempted := true, succeeded := true, failedMark := false }
  else
    { newOp := { op with retryCount := op.retryCount + 1, timestamp := now },
      attempted := true, succeeded := false,
      failedMark := MAX_RETRY_ATTEMPTS ≤ op.retryCount + 1 }

/-- Observable record of one sync pass: the operations attempted (in
attempt order, with the field values they had when attempted), and the
`successfulOperations` / `failedOperations` id lists. -/
structure PassResult where
  attempted : List PendingOperation
  successfulIds : List String
  failedIds : List String
deriving DecidableEq, Repr

/-- The `successfulOperations` id list collected during the loop. -/
def passSuccessfulIds (transport : PendingOperation → TransportOutcome) (now : Int)
    (q : List PendingOperation) : List String :=
  ((sortPending q).filter fun op => (stepOp transport now op).succeeded).map (·.id)

/-- The `failedOperations` id list collected during the loop. -/
def passFailedIds (transport : PendingOperation → TransportOutcome) (now : Int)
    (q : List PendingOperation) : List String :=
  ((sortPending q).filter fun op => (stepOp transport now op).failedMark).map (·.id)

/-- The queue after the loop: the sorted queue with every element
replaced by its in-place update (the loop mutates the shared element
objects). -/
def passUpdated (transport : PendingOperation → TransportOutcome) (now : Int)
    (q : List PendingOperation) : List PendingOperation :=
  (sortPending q).map fun op => (stepOp transport now op).newOp

/-- The operations the loop actually attempted, in attempt order and
with their pre-attempt field values. -/
def passAttempted (transport : PendingOperation → TransportOutcome) (now : Int)
    (q : List PendingOperation) : List PendingOperation :=
  (sortPending q).filter fun op => (stepOp transport now op).attempted

/-- The queue left after removing the successful and failed ids. -/
def passRemaining (transport : PendingOperation → TransportOutcome) (now : Int)
    (q : List PendingOperation) : List PendingOperation :=
  (passUpdated transport now q).filter fun op =>
    !((passSuccessfulIds transport now q).contains op.id) &&
    !((passFailedIds transport now q).contains op.id)

/-- The drain logic of `syncPendingOperations` after its guards: sort
the queue, process each operation once (the loop mutates the queue's
elements in place, so the post-loop queue is the sorted list with each
element replaced by its `stepOp` update), then filter out the ids
collected in `successfulOperations` and `failedOperations`. -/
def drainPass (transport : PendingOperation → TransportOutcome) (now : Int)
    (q : List PendingOperation) : List PendingOperation × PassResult :=
  (passRemaining transport now q,
   { attempted := passAttempted transport now q,
     successfulIds := passSuccessfulIds transport now q,
     failedIds := passFailedIds transport now q })

/-- The empty pass record produced by a short-circuited sync call. -/
def emptyPass : PassResult :=
  { attempted := [], successfulIds := [], failedIds := [] }

/-- Operation `syncPendingOperations()`, also returning the pass record.  Guards
in source order: sync already in progress, offline, rate limit
(`now - lastSyncAttempt < 5000`).  When the drain runs, the queue is
replaced by the remaining operations, the result is persisted
(`saveOk`), `lastSyncAttempt` is set to `now`, and `syncInProgress` is
`false` again on exit (the `finally` block). -/
def syncPass (st : RState) (now : Int) (transport : PendingOperation → TransportOutcome)
    (saveOk : Bool) : RState × PassResult :=
  if st.syncInProgress then (st, emptyPass)
  else if !st.isOnline then (st, emptyPass)
  else if now - st.lastSyncAttempt < 5000 then (st, emptyPass)
  else
    let d := drainPass transport now st.pendingOperations
    ({ st with pendingOperations := d.1,
               store := doSave saveOk d.1 st.store,
               lastSyncAttempt := now,
               syncInProgress := false }, d.2)

/-- Operation `syncPendingOperations()` as the state transformer alone. -/
def syncPendingOperations (st : RState) (now : Int)
    (transport : PendingOperation → TransportOutcome) (saveOk : Bool) : RState :=
  (syncPass st now transport saveOk).1

/-- Operation `manualSync()`: `false` when offline or a sync is in progress,
otherwise run `syncPendingOperations` and return `true`. -/
def manualSync (st : RState) (now : Int) (transport : PendingOperation → TransportOutcome)
    (saveOk : Bool) : RState × Bool :=
  if !st.isOnline then (st, false)
  else if st.syncInProgress then (st, false)
  else (syncPendingOperations st now transport saveOk, true)

/-- Environment of one `syncPendingOperations` call in a multi-pass
run: the clock reading, the transport behaviour and the save outcome. -/
structure SyncInput where
  now : Int
  transport : PendingOperation → TransportOutcome
  saveOk : Bool

/-- Run a sequence of sync passes, collecting each pass record. -/
def runSync : RState → List SyncInput → RState × List PassResult
  | st, [] => (st, [])
  | st, i :: is =>
    let p := syncPass st i.now i.transport i.saveOk
    let r := runSync p.1 is
    (r.1, p.2 :: r.2)

/-- Number of transport attempts a pass made for the operation id `x`. -/
def attemptsOf (x : String) (pr : PassResult) : Nat :=
  (pr.attempted.filter fun op => op.id == x).length

/-- Total transport attempts for id `x` across a run. -/
def totalAttempts (x : String) (prs : List PassResult) : Nat :=
  (prs.map (attemptsOf x)).sum

/-- The occurrences of id `x` in a queue. -/
def occs (x : String) (q : List PendingOperation) : List PendingOperation :=
  q.filter fun op => op.id == x

/-- The ids of a queue. -/
def idsOf (q : List PendingOperation) : List String := q.map (·.id)

/-! ## Sample values used by the concrete witnesses -/

/-- Options value with every default in force. -/
def optsDefault : OpOptions :=
  { priority := Priority.medium, offlineSupport := true, syncTarget := none }

/-- An offline state with an empty queue and matching store. -/
def stOffline : RState :=
  { isOnline := false, pendingOperations := [], syncInProgress := false,
    lastSyncAttempt := 0, store := [], mirror := [] }

/-- An online state with an empty queue and matching store. -/
def stOnline : RState :=
  { isOnline := true, pendingOperations := [], syncInProgress := false,
    lastSyncAttempt := 0, store := [], mirror := [] }

/-! ## Theorems -/

/-- Claim C1: A `performOperation` call made while offline with
`offlineSupport` true makes no transport request (the outcome and
mirror parameters are irrelevant), appends exactly one new
`PendingOperation` with `retryCount = 0` to the queue, persists the
queue (so the store equals the queue when the save succeeds), and
returns `{success: false, queued: true}`. -/
theorem C1_enqueue_when_offline (st : RState) (endpoint : String) (method : Method)
    (body : String) (opts : OpOptions) (opId : String) (now : Int)
    (outcome outcome' : TransportOutcome) (mirrorOk mirrorOk' : Bool) (saveOk : Bool)
    (hoff : st.isOnline = false) (hsup : opts.offlineSupport = true)
    (hsave : saveOk = true) :
    (performOperation st endpoint method body opts opId now outcome mirrorOk saveOk).2
      = { success := false, data := none, error := none, queued := some true } ∧
    (performOperation st endpoint method body opts opId now outcome mirrorOk saveOk).1.pendingOperations
      = st.pendingOperations ++ [mkPendingOperation opId endpoint method body now opts.priority] ∧
    (mkPendingOperation opId endpoint method body now opts.priority).retryCount = 0 ∧
    (performOperation st endpoint method body opts opId now outcome mirrorOk saveOk).1.store
      = (performOperation st endpoint method body opts opId now outcome mirrorOk saveOk).1.pendingOperations ∧
    performOperation st endpoint method body opts opId now outcome mirrorOk saveOk
      = performOperation st endpoint method body opts opId now outcome' mirrorOk' saveOk := by
  subst hsave
  simp [performOperation, hoff, hsup, doSave, mkPendingOperation]

/-- Witness for C1 at a concrete offline call. -/
theorem C1_enqueue_when_offline_witness :
    (performOperation stOffline "/w" Method.post "b" optsDefault "op1" 10
        (TransportOutcome.thrown none) true true).2
      = { success := false, data := none, error := none, queued := some true } ∧
    (performOperation stOffline "/w" Method.post "b" optsDefault "op1" 10
        (TransportOutcome.thrown none) true true).1.store
      = (performOperation stOffline "/w" Method.post "b" optsDefault "op1" 10
        (TransportOutcome.thrown none) true true).1.pendingOperations :=
  ⟨(C1_enqueue_when_offline stOffline "/w" Method.post "b" optsDefault "op1" 10
      (TransportOutcome.thrown none) (TransportOutcome.resp 200 none none) true false true
      rfl rfl rfl).1,
   (C1_enqueue_when_offline stOffline "/w" Method.post "b" optsDefault "op1" 10
      (TransportOutcome.thrown none) (TransportOutcome.resp 200 none none) true false true
      rfl rfl rfl).2.2.2.1⟩

/-- Claim C9: A `performOperation` call made while online whose transport
call returns a status in `[200, 300)` returns `{success: true, data}`,
leaves the pending queue and the store unchanged, and the success or
failure of the local-mirror update never changes the returned result. -/
theorem C9_success_passthrough (st : RState) (endpoint : String) (method : Method)
    (body : String) (opts : OpOptions) (opId : String) (now : Int) (status : Int)
    (data err : Option String) (mirrorOk saveOk : Bool)
    (hon : st.isOnline = true) (h2 : 200 ≤ status) (h3 : status < 300) :
    (performOperation st endpoint method body opts opId now
        (TransportOutcome.resp status data err) mirrorOk saveOk).2
      = { success := true, data := data, error := none, queued := none } ∧
    (performOperation st endpoint method body opts opId now
        (TransportOutcome.resp status data err) mirrorOk saveOk).1.pendingOperations
      = st.pendingOperations ∧
    (performOperation st endpoint method body opts opId now
        (TransportOutcome.resp status data err) mirrorOk saveOk).1.store
      = st.store ∧
    (∀ mk mk' : Bool,
      (performOperation st endpoint method body opts opId now
          (TransportOutcome.resp status data err) mk saveOk).2
        = (performOperation st endpoint method body opts opId now
          (TransportOutcome.resp status data err) mk' saveOk).2) := by
  refine ⟨?_, ?_, ?_, ?_⟩ <;>
    simp [performOperation, hon, h2, h3]

/-- Witness for C9 at a concrete online call with a 200 response. -/
theorem C9_success_passthrough_witness :
    (performOperation stOnline "/w" Method.put "b" optsDefault "op2" 10
        (TransportOutcome.resp 200 (some "d") none) false true).2
      = { success := true, data := some "d", error := none, queued := none } ∧
    (performOperation stOnline "/w" Method.put "b" optsDefault "op2" 10
        (TransportOutcome.resp 200 (some "d") none) false true).1.pendingOperations
      = stOnline.pendingOperations :=
  ⟨(C9_success_passthrough stOnline "/w" Method.put "b" optsDefault "op2" 10 200
      (some "d") none false true rfl (by decide) (by decide)).1,
   (C9_success_passthrough stOnline "/w" Method.put "b" optsDefault "op2" 10 200
      (some "d") none false true rfl (by decide) (by decide)).2.1⟩

/-- Claim C5: A `performOperation` call made while online whose transport
attempt fails (non-2xx status or thrown error): with `offlineSupport`
true it enqueues one fresh `PendingOperation` with `retryCount = 0`,
persists the queue, and returns success `false` with an error and no
`queued` flag; with `offlineSupport` false it returns the same failure
shape and leaves the state unchanged. -/
theorem C5_online_failure_enqueue (st : RState) (endpoint : String) (method : Method)
    (body : String) (opts : OpOptions) (opId : String) (now : Int)
    (outcome : TransportOutcome) (mirrorOk saveOk : Bool)
    (hon : st.isOnline = true) (hfail : outcome.isSuccess = false)
    (hsave : saveOk = true) :
    (opts.offlineSupport = true →
      (performOperation st endpoint method body opts opId now outcome mirrorOk saveOk).1.pendingOperations
        = st.pendingOperations ++ [mkPendingOperation opId endpoint method body now opts.priority] ∧
      (mkPendingOperation opId endpoint method body now opts.priority).retryCount = 0 ∧
      (performOperation st endpoint method body opts opId now outcome mirrorOk saveOk).1.store
        = (performOperation st endpoint method body opts opId now outcome mirrorOk saveOk).1.pendingOperations ∧
      (performOperation st endpoint method body opts opId now outcome mirrorOk saveOk).2.success = false ∧
      (∃ e, (performOperation st endpoint method body opts opId now outcome mirrorOk saveOk).2.error = some e) ∧
      (performOperation st endpoint method body opts opId now outcome mirrorOk saveOk).2.queued = none) ∧
    (opts.offlineSupport = false →
      (performOperation st endpoint method body opts opId now outcome mirrorOk saveOk).1 = st ∧
      (performOperation st endpoint method body opts opId now outcome mirrorOk saveOk).2.success = false ∧
      (∃ e, (performOperation st endpoint method body opts opId now outcome mirrorOk saveOk).2.error = some e) ∧
      (performOperation st endpoint method body opts opId now outcome mirrorOk saveOk).2.queued = none) := by
  subst hsave
  cases outcome with
  | resp status data error =>
    have hns : ¬(200 ≤ status ∧ status < 300) := by
      simpa [TransportOutcome.isSuccess] using hfail
    constructor <;> intro hsup <;>
      simp [performOperation, hon, hsup, hns, doSave, mkPendingOperation]
  | thrown msg =>
    constructor <;> intro hsup <;>
      simp [performOperation, hon, hsup, doSave, mkPendingOperation]

/-- Witness for C5 at a concrete online call with a 500 response. -/
theorem C5_online_failure_enqueue_witness :
    (performOperation stOnline "/w" Method.post "b" optsDefault "op3" 10
        (TransportOutcome.resp 500 none (some "boom")) true true).1.pendingOperations
      = stOnline.pendingOperations
        ++ [mkPendingOperation "op3" "/w" Method.post "b" 10 optsDefault.priority] ∧
    (performOperation stOnline "/w" Method.post "b" optsDefault "op3" 10
        (TransportOutcome.resp 500 none (some "boom")) true true).2.queued = none :=
  ⟨((C5_online_failure_enqueue stOnline "/w" Method.post "b" optsDefault "op3" 10
      (TransportOutcome.resp 500 none (some "boom")) true true rfl (by decide) rfl).1
      rfl).1,
   ((C5_online_failure_enqueue stOnline "/w" Method.post "b" optsDefault "op3" 10
      (TransportOutcome.resp 500 none (some "boom")) true true rfl (by decide) rfl).1
      rfl).2.2.2.2.2⟩

/-- The three result shapes `performOperation` can return: success
with no error and no queued flag; the offline-queued shape; or failure
with an error message and no queued flag. -/
def wellFormedResult (res : OperationResult) : Prop :=
  (res.success = true ∧ res.error = none ∧ res.queued = none) ∨
  (res = { success := false, data := none, error := none, queued := some true }) ∨
  (res.success = false ∧ (∃ e, res.error = some e) ∧ res.queued = none ∧ res.data = none)

/-- Claim C6: For every input — every transport outcome including thrown
errors, every mirror outcome, every save outcome — `performOperation`
returns a value of the `{success, data?, error?, queued?}` shape
(exceptions are caught inside the layer), and `syncPendingOperations`
likewise returns normally, leaving `syncInProgress` as it found it
(the `finally` block restores the flag). -/
theorem C6_no_exception_escapes (st : RState) (endpoint : String) (method : Method)
    (body : String) (opts : OpOptions) (opId : String) (now now2 : Int)
    (outcome : TransportOutcome) (transport : PendingOperation → TransportOutcome)
    (mirrorOk saveOk saveOk2 : Bool) :
    wellFormedResult
      (performOperation st endpoint method body opts opId now outcome mirrorOk saveOk).2 ∧
    (syncPendingOperations st now2 transport saveOk2).syncInProgress
      = st.syncInProgress := by
  constructor
  · unfold wellFormedResult performOperation
    by_cases hon : st.isOnline = true
    · cases outcome with
      | resp status data error =>
        by_cases hs : 200 ≤ status ∧ status < 300
        · simp [hon, hs]
        · by_cases hsup : opts.offlineSupport <;> simp [hon, hs, hsup]
      | thrown msg =>
        by_cases hsup : opts.offlineSupport <;> simp [hon, hsup]
    · rw [Bool.not_eq_true] at hon
      by_cases hsup : opts.offlineSupport
      · simp [hon, hsup]
      · rw [Bool.not_eq_true] at hsup
        cases outcome with
        | resp status data error =>
          by_cases hs : 200 ≤ status ∧ status < 300 <;> simp [hon, hs, hsup]
        | thrown msg => simp [hon, hsup]
  · unfold syncPendingOperations syncPass
    by_cases h1 : st.syncInProgress
    · simp [h1]
    · by_cases h2 : (!st.isOnline) = true
      · simp [h1, h2]
      · by_cases h3 : now2 - st.lastSyncAttempt < 5000 <;>
          simp [h1, h2, h3]

/-- Claim C7: Write-through: if the durable store equals the in-memory
queue and saves succeed, then after any `performOperation` call and
after any `syncPendingOperations` call the store again equals the
queue — every queue mutation is followed by a full persist before the
operation completes. -/
theorem C7_write_through (st : RState) (endpoint : String) (method : Method)
    (body : String) (opts : OpOptions) (opId : String) (now now2 : Int)
    (outcome : TransportOutcome) (transport : PendingOperation → TransportOutcome)
    (mirrorOk saveOk : Bool)
    (hinv : st.store = st.pendingOperations) (hsave : saveOk = true) :
    (performOperation st endpoint method body opts opId now outcome mirrorOk saveOk).1.store
      = (performOperation st endpoint method body opts opId now outcome mirrorOk saveOk).1.pendingOperations ∧
    (syncPendingOperations st now2 transport saveOk).store
      = (syncPendingOperations st now2 transport saveOk).pendingOperations := by
  subst hsave
  constructor
  · unfold performOperation
    by_cases hon : st.isOnline = true
    · cases outcome with
      | resp status data error =>
        by_cases hs : 200 ≤ status ∧ status < 300
        · simp [hon, hs, hinv]
        · by_cases hsup : opts.offlineSupport <;> simp [hon, hs, hsup, doSave, hinv]
      | thrown msg =>
        by_cases hsup : opts.offlineSupport <;> simp [hon, hsup, doSave, hinv]
    · rw [Bool.not_eq_true] at hon
      by_cases hsup : opts.offlineSupport
      · simp [hon, hsup, doSave]
      · rw [Bool.not_eq_true] at hsup
        cases outcome with
        | resp status data error =>
          by_cases hs : 200 ≤ status ∧ status < 300 <;>
            simp [hon, hs, hsup, doSave, hinv]
        | thrown msg => simp [hon, hsup, doSave, hinv]
  · unfold syncPendingOperations syncPass
    by_cases h1 : st.syncInProgress
    · simp [h1, hinv]
    · by_cases h2 : (!st.isOnline) = true
      · simp [h1, h2, hinv]
      · by_cases h3 : now2 - st.lastSyncAttempt < 5000 <;>
          simp [h1, h2, h3, hinv, doSave]

/-- Witness for C7 at a concrete online state with matching store. -/
theorem C7_write_through_witness :
    (performOperation stOnline "/w" Method.delete "b" optsDefault "op4" 10
        (TransportOutcome.thrown (some "x")) true true).1.store
      = (performOperation stOnline "/w" Method.delete "b" optsDefault "op4" 10
        (TransportOutcome.thrown (some "x")) true true).1.pendingOperations ∧
    (syncPendingOperations stOnline 6000 (fun _ => TransportOutcome.thrown none) true).store
      = (syncPendingOperations stOnline 6000
        (fun _ => TransportOutcome.thrown none) true).pendingOperations :=
  ⟨(C7_write_through stOnline "/w" Method.delete "b" optsDefault "op4" 10 6000
      (TransportOutcome.thrown (some "x")) (fun _ => TransportOutcome.thrown none)
      true true rfl rfl).1,
   (C7_write_through stOnline "/w" Method.delete "b" optsDefault "op4" 10 6000
      (TransportOutcome.thrown (some "x")) (fun _ => TransportOutcome.thrown none)
      true true rfl rfl).2⟩

/-- Claim C8: Rate-limited sync: when a sync pass actually drains at time
`now1`, a second call at any `now2` with `now2 - now1 < 5000` is a
no-op (state unchanged, nothing attempted).  Moreover each guard
short-circuits by itself: a sync already in progress, the device being
offline, and a recent sync attempt each make the call a no-op. -/
theorem C8_rate_limited_sync (st : RState) (now1 now2 : Int)
    (tr1 tr2 : PendingOperation → TransportOutcome) (sv1 sv2 : Bool)
    (h1 : st.syncInProgress = false) (h2 : st.isOnline = true)
    (h3 : 5000 ≤ now1 - st.lastSyncAttempt) (h4 : now2 - now1 < 5000) :
    syncPass (syncPass st now1 tr1 sv1).1 now2 tr2 sv2
      = ((syncPass st now1 tr1 sv1).1, emptyPass) ∧
    (∀ (s : RState) (n : Int) (tr : PendingOperation → TransportOutcome) (sv : Bool),
      s.syncInProgress = true → syncPass s n tr sv = (s, emptyPass)) ∧
    (∀ (s : RState) (n : Int) (tr : PendingOperation → TransportOutcome) (sv : Bool),
      s.isOnline = false → s.syncInProgress = false → syncPass s n tr sv = (s, emptyPass)) ∧
    (∀ (s : RState) (n : Int) (tr : PendingOperation → TransportOutcome) (sv : Bool),
      s.syncInProgress = false → s.isOnline = true → n - s.lastSyncAttempt < 5000 →
        syncPass s n tr sv = (s, emptyPass)) := by
  have hguard : ∀ (s : RState) (n : Int) (tr : PendingOperation → TransportOutcome)
      (sv : Bool), s.syncInProgress = false → s.isOnline = true →
      n - s.lastSyncAttempt < 5000 → syncPass s n tr sv = (s, emptyPass) := by
    intro s n tr sv hs ho hn
    unfold syncPass
    simp [hs, ho, hn]
  refine ⟨?_, ?_, ?_, hguard⟩
  · have hfirst : (syncPass st now1 tr1 sv1).1.syncInProgress = false ∧
        (syncPass st now1 tr1 sv1).1.isOnline = true ∧
        (syncPass st now1 tr1 sv1).1.lastSyncAttempt = now1 := by
      unfold syncPass
      simp [h1, h2, not_lt.mpr h3]
    exact hguard _ _ _ _ hfirst.1 hfirst.2.1 (by rw [hfirst.2.2]; exact h4)
  · intro s n tr sv hs
    unfold syncPass
    simp [hs]
  · intro s n tr sv ho hs
    unfold syncPass
    simp [hs, ho]

/-- Witness for C8: two concrete back-to-back sync calls 1 ms apart. -/
theorem C8_rate_limited_sync_witness :
    syncPass (syncPass stOnline 6000 (fun _ => TransportOutcome.resp 200 none none) true).1
        6001 (fun _ => TransportOutcome.resp 200 none none) true
      = ((syncPass stOnline 6000 (fun _ => TransportOutcome.resp 200 none none) true).1,
         emptyPass) :=
  (C8_rate_limited_sync stOnline 6000 6001
    (fun _ => TransportOutcome.resp 200 none none)
    (fun _ => TransportOutcome.resp 200 none none) true true
    rfl rfl (by decide) (by decide)).1

/-- Claim C10: `manualSync` returns `false` exactly when the device is
offline or a sync is already in progress; in every other state it
returns `true`, including when the inner sync call is a rate-limited
no-op (in which case the state is returned unchanged, so `true` does
not imply that any drain logic ran). -/
theorem C10_manual_sync (st : RState) (now : Int)
    (transport : PendingOperation → TransportOutcome) (saveOk : Bool) :
    ((manualSync st now transport saveOk).2 = false ↔
      (st.isOnline = false ∨ st.syncInProgress = true)) ∧
    (st.isOnline = true → st.syncInProgress = false →
      now - st.lastSyncAttempt < 5000 →
      manualSync st now transport saveOk = (st, true)) := by
  constructor
  · by_cases ho : st.isOnline
    · by_cases hs : st.syncInProgress <;> simp [manualSync, ho, hs]
    · simp [manualSync, ho, Bool.not_eq_true _ ▸ ho]
  · intro ho hs hn
    unfold manualSync syncPendingOperations syncPass
    simp [ho, hs, hn]

/-- Witness for C10: a concrete rate-limited `manualSync` that still
returns `true` without touching the state. -/
theorem C10_manual_sync_witness :
    manualSync stOnline 100 (fun _ => TransportOutcome.thrown none) true
      = (stOnline, true) :=
  (C10_manual_sync stOnline 100 (fun _ => TransportOutcome.thrown none) true).2
    rfl rfl (by decide)

/-! ## The (priority, timestamp) order -/

/-- The specification's order on pending operations: strictly higher
priority first, and within equal priority, older timestamp first. -/
def specLe (a b : PendingOperation) : Prop :=
  priorityOrder a.priority < priorityOrder b.priority ∨
  (priorityOrder a.priority = priorityOrder b.priority ∧ a.timestamp ≤ b.timestamp)

instance (a b : PendingOperation) : Decidable (specLe a b) := by
  unfold specLe
  infer_instance

/-- The source comparator agrees with the specification's order:
`syncCompare a b <= 0` iff `a` comes no later than `b`. -/
lemma syncCompare_le_iff (a b : PendingOperation) :
    syncCompare a b ≤ 0 ↔ specLe a b := by
  unfold syncCompare specLe
  split
  · next h => omega
  · next h => omega

instance : IsTotal PendingOperation compLe :=
  ⟨fun a b => by
    unfold compLe
    rw [syncCompare_le_iff a b, syncCompare_le_iff b a]
    unfold specLe
    omega⟩

instance : IsTrans PendingOperation compLe :=
  ⟨fun a b c hab hbc => by
    unfold compLe at hab hbc ⊢
    rw [syncCompare_le_iff] at hab hbc ⊢
    unfold specLe at hab hbc ⊢
    omega⟩

/-- Sorting is a permutation of the input. -/
lemma sortPending_perm (l : List PendingOperation) : (sortPending l).Perm l :=
  List.perm_insertionSort compLe l

/-- Sorting produces a list pairwise ordered by `specLe`. -/
lemma sortPending_sorted (l : List PendingOperation) :
    (sortPending l).Pairwise specLe := by
  have hs := List.sorted_insertionSort compLe l
  exact hs.imp fun hab => (syncCompare_le_iff _ _).mp hab

/-- Transport stub that always succeeds, and the three operations of
the priority-ordering scenario: enqueued in the order low, high,
medium. -/
def trAlwaysOk : PendingOperation → TransportOutcome :=
  fun _ => TransportOutcome.resp 200 (some "d") none

/-- The low-priority operation, enqueued first. -/
def opLowW : PendingOperation :=
  { id := "l", endpoint := "/w", method := Method.post, body := "b",
    timestamp := 1, retryCount := 0, priority := Priority.low }

/-- The high-priority operation, enqueued second. -/
def opHighW : PendingOperation :=
  { id := "h", endpoint := "/w", method := Method.post, body := "b",
    timestamp := 2, retryCount := 0, priority := Priority.high }

/-- The medium-priority operation, enqueued third. -/
def opMedW : PendingOperation :=
  { id := "m", endpoint := "/w", method := Method.post, body := "b",
    timestamp := 3, retryCount := 0, priority := Priority.medium }

/-- Claim C3: A sync pass attempts queued operations in the order given
by priority first (high before medium before low) and ascending
timestamp within equal priority: the attempted sequence is a
subsequence of the sorted queue and is pairwise ordered by that key;
the sorted queue is a permutation of the queue.  In particular, three
operations enqueued with priorities low, high, medium are attempted in
the order high, medium, low by an always-succeeding transport. -/
theorem C3_priority_ordering (transport : PendingOperation → TransportOutcome)
    (now : Int) (q : List PendingOperation) :
    List.Pairwise specLe (drainPass transport now q).2.attempted ∧
    ((drainPass transport now q).2.attempted).Sublist (sortPending q) ∧
    (sortPending q).Perm q ∧
    ((drainPass trAlwaysOk 10 [opLowW, opHighW, opMedW]).2.attempted).map (·.id)
      = ["h", "m", "l"] := by
  refine ⟨?_, ?_, sortPending_perm q, by decide⟩
  · exact List.Pairwise.sublist (List.filter_sublist _) (sortPending_sorted q)
  · exact List.filter_sublist _

/-- Claim C4: For a queued operation with `0 < retryCount < 5`, a sync
pass at time `now` skips it (leaving it unchanged, unattempted and
unmarked) exactly when `now - timestamp < RETRY_BACKOFF_MS *
2^retryCount`, and otherwise attempts it. -/
theorem C4_exponential_backoff (transport : PendingOperation → TransportOutcome)
    (now : Int) (op : PendingOperation)
    (h0 : 0 < op.retryCount) (h5 : op.retryCount < MAX_RETRY_ATTEMPTS) :
    (now - op.timestamp < RETRY_BACKOFF_MS * 2 ^ op.retryCount ↔
      stepOp transport now op
        = { newOp := op, attempted := false, succeeded := false, failedMark := false }) ∧
    (RETRY_BACKOFF_MS * 2 ^ op.retryCount ≤ now - op.timestamp →
      (stepOp transport now op).attempted = true) := by
  have hmax : ¬ MAX_RETRY_ATTEMPTS ≤ op.retryCount := not_le.mpr h5
  constructor
  · constructor
    · intro hlt
      simp [stepOp, hmax, backoffDelay, h0, hlt]
    · intro heq
      by_contra hnl
      push_neg at hnl
      have hcond : ¬(0 < op.retryCount ∧ now - op.timestamp < backoffDelay op.retryCount) := by
        unfold backoffDelay
        push_neg
        intro _
        exact hnl
      by_cases hs : (transport op).isSuccess = true <;>
        simp [stepOp, hmax, hcond, hs] at heq
  · intro hge
    have hcond : ¬(0 < op.retryCount ∧ now - op.timestamp < backoffDelay op.retryCount) := by
      unfold backoffDelay
      push_neg
      intro _
      exact hge
    by_cases hs : (transport op).isSuccess = true <;>
      simp [stepOp, hmax, hcond, hs]

/-- The backoff-scenario operation: `retryCount = 2`, `timestamp = 0`. -/
def opBackoffW : PendingOperation :=
  { id := "bk", endpoint := "/w", method := Method.put, body := "b",
    timestamp := 0, retryCount := 2, priority := Priority.medium }

/-- Witness for C4: with `retryCount = 2` and `timestamp = t`, a pass
at `t + 1000` skips the operation and a pass at `t + 4001` attempts it. -/
theorem C4_exponential_backoff_witness :
    stepOp trAlwaysOk 1000 opBackoffW
      = { newOp := opBackoffW, attempted := false, succeeded := false, failedMark := false } ∧
    (stepOp trAlwaysOk 4001 opBackoffW).attempted = true :=
  ⟨(C4_exponential_backoff trAlwaysOk 1000 opBackoffW (by decide) (by decide)).1.mp
      (by decide),
   (C4_exponential_backoff trAlwaysOk 4001 opBackoffW (by decide) (by decide)).2
      (by decide)⟩

/-! ## Lemmas about one loop iteration and about id occurrences -/

/-- The loop never changes an operation's id. -/
lemma stepOp_id (tr : PendingOperation → TransportOutcome) (now : Int)
    (op : PendingOperation) : (stepOp tr now op).newOp.id = op.id := by
  unfold stepOp
  split
  · rfl
  split
  · rfl
  split
  · rfl
  · rfl

/-- An operation at or above the retry ceiling is marked failed without
an attempt and left unmodified. -/
lemma stepOp_max (tr : PendingOperation → TransportOutcome) (now : Int)
    (op : PendingOperation) (h : MAX_RETRY_ATTEMPTS ≤ op.retryCount) :
    stepOp tr now op
      = { newOp := op, attempted := false, succeeded := false, failedMark := true } := by
  unfold stepOp
  rw [if_pos h]

/-- A failing transport never yields a succeeded mark. -/
lemma stepOp_not_succeeded (tr : PendingOperation → TransportOutcome) (now : Int)
    (op : PendingOperation) (hfail : (tr op).isSuccess = false) :
    (stepOp tr now op).succeeded = false := by
  unfold stepOp
  split
  · rfl
  split
  · rfl
  split
  · next h => rw [hfail] at h; cases h
  · rfl

/-- Shape of one failing-transport iteration: either no attempt was
made (ceiling or backoff; the operation is unmodified and is marked
failed exactly when it is at the ceiling), or one attempt was made
below the ceiling, incrementing `retryCount` and marking failed
exactly when the increment reaches the ceiling. -/
lemma stepOp_fail_shape (tr : PendingOperation → TransportOutcome) (now : Int)
    (op : PendingOperation) (hfail : (tr op).isSuccess = false) :
    ((stepOp tr now op).attempted = false ∧ (stepOp tr now op).newOp = op ∧
      ((stepOp tr now op).failedMark = true ↔ MAX_RETRY_ATTEMPTS ≤ op.retryCount)) ∨
    ((stepOp tr now op).attempted = true ∧ ¬ MAX_RETRY_ATTEMPTS ≤ op.retryCount ∧
      (stepOp tr now op).newOp.retryCount = op.retryCount + 1 ∧
      ((stepOp tr now op).failedMark = true ↔ MAX_RETRY_ATTEMPTS ≤ op.retryCount + 1)) := by
  unfold stepOp
  split
  · next h => exact Or.inl ⟨rfl, rfl, by simp [h]⟩
  next h =>
  split
  · exact Or.inl ⟨rfl, rfl, by simp [h]⟩
  split
  · next h3 => rw [hfail] at h3; cases h3
  · exact Or.inr ⟨rfl, h, rfl, by simp⟩

/-- Two filters of the same list commute. -/
lemma filter_swap (p q : PendingOperation → Bool) (l : List PendingOperation) :
    (l.filter p).filter q = (l.filter q).filter p := by
  induction l with
  | nil => rfl
  | cons a t ih =>
    by_cases hp : p a = true <;> by_cases hq : q a = true <;>
      simp [List.filter_cons, hp, hq, ih]

/-- Filtering by id commutes with an id-preserving map. -/
lemma filter_id_map (x : String) (f : PendingOperation → PendingOperation)
    (hf : ∀ op, (f op).id = op.id) (l : List PendingOperation) :
    (l.map f).filter (fun op => op.id == x) = (l.filter (fun op => op.id == x)).map f := by
  induction l with
  | nil => rfl
  | cons a t ih =>
    by_cases h : (a.id == x) = true <;>
      simp [List.filter_cons, hf a, h, ih]

/-- If `x` is not among the ids, it has no occurrences. -/
lemma occs_eq_nil_of_not_mem (x : String) (q : List PendingOperation)
    (h : x ∉ idsOf q) : occs x q = [] := by
  unfold occs
  rw [List.filter_eq_nil_iff]
  intro op hop hbe
  exact h (by
    unfold idsOf
    exact List.mem_map.mpr ⟨op, hop, by simpa using hbe⟩)

/-- With no duplicate ids, an id occurs at most once. -/
lemma occs_length_le_one (x : String) (q : List PendingOperation)
    (hnd : (idsOf q).Nodup) : (occs x q).length ≤ 1 := by
  induction q with
  | nil => simp [occs]
  | cons a t ih =>
    unfold idsOf at hnd
    rw [List.map_cons, List.nodup_cons] at hnd
    unfold occs
    rw [List.filter_cons]
    by_cases h : (a.id == x) = true
    · rw [if_pos h]
      have hnil : occs x t = [] := by
        apply occs_eq_nil_of_not_mem
        intro hx
        apply hnd.1
        have he : a.id = x := by simpa using h
        rw [he]
        exact hx
      unfold occs at hnil
      rw [hnil]
      simp
    · rw [if_neg h]
      exact ih hnd.2

/-- A permutation of a list of length at most one is the list itself. -/
lemma perm_eq_of_len_le_one {l l' : List PendingOperation} (h : l.Perm l')
    (hl : l.length ≤ 1) : l = l' := by
  cases l with
  | nil => exact ((List.perm_nil.mp h.symm).symm)
  | cons a t =>
    cases t with
    | nil => exact List.singleton_perm.mp h
    | cons b u => simp at hl

/-- Sorting the queue preserves id-nodupness. -/
lemma sortPending_nodup (q : List PendingOperation)
    (hnd : (idsOf q).Nodup) : (idsOf (sortPending q)).Nodup := by
  unfold idsOf at hnd ⊢
  exact ((sortPending_perm q).map _).nodup_iff.mpr hnd

/-- With no duplicate ids, sorting does not change an id's occurrences. -/
lemma occs_sortPending (x : String) (q : List PendingOperation)
    (hnd : (idsOf q).Nodup) : occs x (sortPending q) = occs x q := by
  have hperm : (occs x (sortPending q)).Perm (occs x q) :=
    List.Perm.filter _ (sortPending_perm q)
  exact perm_eq_of_len_le_one hperm
    (occs_length_le_one x _ (sortPending_nodup q hnd))

/-! ## Lemmas about one drain pass -/

/-- The loop preserves the ids of the sorted queue. -/
lemma idsOf_passUpdated (tr : PendingOperation → TransportOutcome) (now : Int)
    (q : List PendingOperation) :
    idsOf (passUpdated tr now q) = idsOf (sortPending q) := by
  unfold idsOf passUpdated
  rw [List.map_map]
  exact List.map_congr_left fun op _ => stepOp_id tr now op

/-- A drain pass preserves id-nodupness of the queue. -/
lemma drain_ids_nodup (tr : PendingOperation → TransportOutcome) (now : Int)
    (q : List PendingOperation) (hnd : (idsOf q).Nodup) :
    (idsOf (passRemaining tr now q)).Nodup := by
  have h1 : (idsOf (passUpdated tr now q)).Nodup := by
    rw [idsOf_passUpdated]
    exact sortPending_nodup q hnd
  have h2 : (idsOf (passRemaining tr now q)).Sublist (idsOf (passUpdated tr now q)) := by
    unfold passRemaining idsOf
    exact (List.filter_sublist _).map _
  exact List.Nodup.sublist h2 h1

/-- With a transport that fails on every operation, no id is collected
as successful. -/
lemma drain_no_success (tr : PendingOperation → TransportOutcome) (now : Int)
    (q : List PendingOperation) (hfail : ∀ o, (tr o).isSuccess = false) :
    passSuccessfulIds tr now q = [] := by
  unfold passSuccessfulIds
  have h : (sortPending q).filter (fun op => (stepOp tr now op).succeeded) = [] := by
    rw [List.filter_eq_nil_iff]
    intro op _ hs
    rw [stepOp_not_succeeded tr now op (hfail op)] at hs
    cases hs
  rw [h]
  rfl

/-- An id with no occurrence in the queue is neither attempted nor
present after a drain pass (a pass never adds operations). -/
lemma drain_occs_nil (tr : PendingOperation → TransportOutcome) (now : Int)
    (q : List PendingOperation) (x : String) (hx : occs x q = []) :
    occs x (passRemaining tr now q) = [] ∧ attemptsOf x (drainPass tr now q).2 = 0 := by
  have hq : ∀ op ∈ q, ¬ (op.id == x) = true := by
    have h := hx
    unfold occs at h
    rw [List.filter_eq_nil_iff] at h
    exact h
  have hsorted : ∀ op ∈ sortPending q, ¬ (op.id == x) = true := fun op hop =>
    hq op ((sortPending_perm q).mem_iff.mp hop)
  constructor
  · unfold passRemaining occs
    rw [List.filter_eq_nil_iff]
    intro op hop
    have hop2 : op ∈ passUpdated tr now q := List.mem_of_mem_filter hop
    unfold passUpdated at hop2
    obtain ⟨o, ho, rfl⟩ := List.mem_map.mp hop2
    intro hbe
    rw [stepOp_id] at hbe
    exact hsorted o ho hbe
  · show ((passAttempted tr now q).filter fun op => op.id == x).length = 0
    have h : (passAttempted tr now q).filter (fun op => op.id == x) = [] := by
      rw [List.filter_eq_nil_iff]
      intro op hop
      exact hsorted op (List.mem_of_mem_filter (by
        unfold passAttempted at hop
        exact hop))
    rw [h]
    rfl

/-- The behaviour of one failing-transport drain pass on the unique
occurrence of an id: exactly the attempts of that operation's `stepOp`
are counted, and the operation survives the pass exactly when its
`stepOp` did not mark it failed (updated in place). -/
lemma drain_occs_one (tr : PendingOperation → TransportOutcome) (now : Int)
    (q : List PendingOperation) (x : String) (op : PendingOperation)
    (hnd : (idsOf q).Nodup) (hx : occs x q = [op])
    (hfail : ∀ o, (tr o).isSuccess = false) :
    attemptsOf x (drainPass tr now q).2
      = (if (stepOp tr now op).attempted = true then 1 else 0) ∧
    occs x (passRemaining tr now q)
      = (if (stepOp tr now op).failedMark = true then [] else [(stepOp tr now op).newOp]) := by
  have hsorted : occs x (sortPending q) = [op] := by
    rw [occs_sortPending x q hnd, hx]
  have hsf : (sortPending q).filter (fun o => o.id == x) = [op] := hsorted
  have hopmem : op ∈ sortPending q ∧ (op.id == x) = true := by
    have h : op ∈ occs x (sortPending q) := by
      rw [hsorted]
      exact List.mem_singleton.mpr rfl
    exact List.mem_filter.mp h
  have huniq : ∀ o ∈ sortPending q, (o.id == x) = true → o = op := by
    intro o ho hbe
    have h : o ∈ occs x (sortPending q) := List.mem_filter.mpr ⟨ho, hbe⟩
    rw [hsorted] at h
    exact List.mem_singleton.mp h
  constructor
  · show ((passAttempted tr now q).filter fun o => o.id == x).length = _
    unfold passAttempted
    rw [filter_swap, hsf]
    by_cases ha : (stepOp tr now op).attempted = true <;>
      simp [List.filter_singleton, ha]
  · have hS : passSuccessfulIds tr now q = [] := drain_no_success tr now q hfail
    have hFmem : x ∈ passFailedIds tr now q ↔ (stepOp tr now op).failedMark = true := by
      constructor
      · intro hxF
        unfold passFailedIds at hxF
        obtain ⟨o, ho, hoid⟩ := List.mem_map.mp hxF
        have hof := List.mem_filter.mp ho
        have heq : o = op := huniq o hof.1 (by simpa using hoid)
        rw [← heq]
        exact hof.2
      · intro hfm
        unfold passFailedIds
        apply List.mem_map.mpr
        refine ⟨op, List.mem_filter.mpr ⟨hopmem.1, hfm⟩, ?_⟩
        simpa using hopmem.2
    show (passRemaining tr now q).filter (fun o => o.id == x) = _
    unfold passRemaining
    rw [filter_swap]
    have hupd : (passUpdated tr now q).filter (fun o => o.id == x)
        = [(stepOp tr now op).newOp] := by
      unfold passUpdated
      rw [filter_id_map x _ (fun o => stepOp_id tr now o), hsf]
      rfl
    rw [hupd]
    have hid : (stepOp tr now op).newOp.id = x := by
      rw [stepOp_id]
      simpa using hopmem.2
    have hmemS : (stepOp tr now op).newOp.id ∉ passSuccessfulIds tr now q := by
      rw [hS]
      simp
    by_cases hfm : (stepOp tr now op).failedMark = true
    · have hmemF : (stepOp tr now op).newOp.id ∈ passFailedIds tr now q := by
        rw [hid]
        exact hFmem.mpr hfm
      simp [List.filter_singleton, hmemS, hmemF, hfm]
    · have hmemF : (stepOp tr now op).newOp.id ∉ passFailedIds tr now q := by
        rw [hid]
        intro hc
        exact hfm (hFmem.mp hc)
      simp [List.filter_singleton, hmemS, hmemF, hfm]

/-! ## Lemmas about one `syncPendingOperations` call -/

/-- A sync call either short-circuits on a guard or runs the drain. -/
lemma syncPass_eq_noop_or_run (st : RState) (now : Int)
    (tr : PendingOperation → TransportOutcome) (sv : Bool) :
    syncPass st now tr sv = (st, emptyPass) ∨
    syncPass st now tr sv
      = ({ st with pendingOperations := passRemaining tr now st.pendingOperations,
                   store := doSave sv (passRemaining tr now st.pendingOperations) st.store,
                   lastSyncAttempt := now, syncInProgress := false },
         (drainPass tr now st.pendingOperations).2) := by
  unfold syncPass
  by_cases h1 : st.syncInProgress = true
  · left
    simp [h1]
  by_cases h2 : st.isOnline = true
  case neg =>
    left
    simp [h1, h2]
  by_cases h3 : now - st.lastSyncAttempt < 5000
  · left
    simp [h1, h2, h3]
  · right
    simp [h1, h2, h3]
    exact ⟨rfl, rfl⟩

/-- A sync call preserves id-nodupness of the queue. -/
lemma syncPass_nodup (st : RState) (now : Int)
    (tr : PendingOperation → TransportOutcome) (sv : Bool)
    (hnd : (idsOf st.pendingOperations).Nodup) :
    (idsOf (syncPass st now tr sv).1.pendingOperations).Nodup := by
  rcases syncPass_eq_noop_or_run st now tr sv with h | h <;> rw [h]
  · exact hnd
  · exact drain_ids_nodup tr now st.pendingOperations hnd

/-- A failing-transport sync call reports no success. -/
lemma syncPass_no_success (st : RState) (now : Int)
    (tr : PendingOperation → TransportOutcome) (sv : Bool)
    (hfail : ∀ o, (tr o).isSuccess = false) :
    (syncPass st now tr sv).2.successfulIds = [] := by
  rcases syncPass_eq_noop_or_run st now tr sv with h | h <;> rw [h]
  · rfl
  · exact drain_no_success tr now st.pendingOperations hfail

/-- An id absent from the queue is neither attempted nor re-added by a
sync call (for any transport). -/
lemma syncPass_occs_nil (st : RState) (now : Int)
    (tr : PendingOperation → TransportOutcome) (sv : Bool) (x : String)
    (hx : occs x st.pendingOperations = []) :
    occs x (syncPass st now tr sv).1.pendingOperations = [] ∧
    attemptsOf x (syncPass st now tr sv).2 = 0 := by
  rcases syncPass_eq_noop_or_run st now tr sv with h | h <;> rw [h]
  · exact ⟨hx, rfl⟩
  · exact ⟨(drain_occs_nil tr now st.pendingOperations x hx).1,
           (drain_occs_nil tr now st.pendingOperations x hx).2⟩

/-- Effect of one failing-transport sync call on the unique occurrence
of an id: at most one attempt, none at or above the retry ceiling, and
afterwards the id is either gone or present once with `retryCount`
grown by exactly the number of attempts, still below the ceiling if an
attempt was made. -/
lemma syncPass_fail_one (st : RState) (now : Int)
    (tr : PendingOperation → TransportOutcome) (sv : Bool) (x : String)
    (op : PendingOperation) (hnd : (idsOf st.pendingOperations).Nodup)
    (hfail : ∀ o, (tr o).isSuccess = false)
    (hx : occs x st.pendingOperations = [op]) :
    ∃ a : Nat, attemptsOf x (syncPass st now tr sv).2 = a ∧ a ≤ 1 ∧
      (MAX_RETRY_ATTEMPTS ≤ op.retryCount → a = 0) ∧
      (occs x (syncPass st now tr sv).1.pendingOperations = [] ∨
       ∃ op', occs x (syncPass st now tr sv).1.pendingOperations = [op'] ∧
         op'.retryCount = op.retryCount + a ∧
         (a = 1 → op'.retryCount < MAX_RETRY_ATTEMPTS)) := by
  rcases syncPass_eq_noop_or_run st now tr sv with h | h <;> rw [h]
  · exact ⟨0, rfl, by omega, fun _ => rfl,
      Or.inr ⟨op, hx, by omega, by omega⟩⟩
  · obtain ⟨hatt, hrem⟩ := drain_occs_one tr now st.pendingOperations x op hnd hx hfail
    rcases stepOp_fail_shape tr now op (hfail op) with ⟨hA, hN, hF⟩ | ⟨hA, hNm, hrc, hF⟩
    · refine ⟨0, ?_, by omega, fun _ => rfl, ?_⟩
      · rw [hatt, hA]
        rfl
      · by_cases hfm : (stepOp tr now op).failedMark = true
        · left
          show occs x (passRemaining tr now st.pendingOperations) = []
          rw [hrem, if_pos hfm]
        · right
          refine ⟨op, ?_, by omega, by omega⟩
          show occs x (passRemaining tr now st.pendingOperations) = [op]
          rw [hrem, if_neg hfm, hN]
    · refine ⟨1, ?_, by omega, fun hge => absurd hge hNm, ?_⟩
      · rw [hatt, hA]
        rfl
      · by_cases hfm : (stepOp tr now op).failedMark = true
        · left
          show occs x (passRemaining tr now st.pendingOperations) = []
          rw [hrem, if_pos hfm]
        · right
          refine ⟨(stepOp tr now op).newOp, ?_, by omega, fun _ => ?_⟩
          · show occs x (passRemaining tr now st.pendingOperations)
                = [(stepOp tr now op).newOp]
            rw [hrem, if_neg hfm]
          · have hnot : ¬ MAX_RETRY_ATTEMPTS ≤ op.retryCount + 1 := fun hc =>
              hfm (hF.mpr hc)
            omega

/-! ## Multi-pass run lemmas -/

/-- Unfolding of `runSync` on a cons input. -/
lemma runSync_cons (st : RState) (i : SyncInput) (is : List SyncInput) :
    runSync st (i :: is)
      = ((runSync (syncPass st i.now i.transport i.saveOk).1 is).1,
         (syncPass st i.now i.transport i.saveOk).2
           :: (runSync (syncPass st i.now i.transport i.saveOk).1 is).2) := rfl

/-- Unfolding of `totalAttempts` on a cons list of pass records. -/
lemma totalAttempts_cons (x : String) (pr : PassResult) (prs : List PassResult) :
    totalAttempts x (pr :: prs) = attemptsOf x pr + totalAttempts x prs := by
  unfold totalAttempts
  rw [List.map_cons, List.sum_cons]

/-- Invariant of a run of failing-transport sync passes, by induction
on the pass list: an absent id stays absent with no attempts; a
uniquely-present id collects at most `MAX_RETRY_ATTEMPTS - retryCount`
attempts in total and ends either removed or present once with
`retryCount` grown by exactly the collected attempts (still below the
ceiling when it started below); and no pass reports any success. -/
lemma runSync_fail_bound (x : String) (is : List SyncInput) :
    ∀ st : RState, (idsOf st.pendingOperations).Nodup →
      (∀ i ∈ is, ∀ o, (i.transport o).isSuccess = false) →
      ((occs x st.pendingOperations = [] →
          totalAttempts x (runSync st is).2 = 0 ∧
          occs x (runSync st is).1.pendingOperations = []) ∧
       (∀ op, occs x st.pendingOperations = [op] →
          totalAttempts x (runSync st is).2
            ≤ MAX_RETRY_ATTEMPTS - op.retryCount ∧
          (occs x (runSync st is).1.pendingOperations = [] ∨
           ∃ op', occs x (runSync st is).1.pendingOperations = [op'] ∧
             op'.retryCount = op.retryCount + totalAttempts x (runSync st is).2 ∧
             (op.retryCount < MAX_RETRY_ATTEMPTS →
               op'.retryCount < MAX_RETRY_ATTEMPTS))) ∧
       (∀ pr ∈ (runSync st is).2, pr.successfulIds = [])) := by
  induction is with
  | nil =>
    intro st hnd hfail
    refine ⟨fun hx => ⟨rfl, hx⟩, fun op hx => ⟨Nat.zero_le _, ?_⟩, by simp [runSync]⟩
    exact Or.inr ⟨op, hx, by simp [runSync, totalAttempts], fun h => h⟩
  | cons i is ih =>
    intro st hnd hfail
    have hf1 : ∀ o, (i.transport o).isSuccess = false :=
      hfail i (List.mem_cons_self i is)
    have hftl : ∀ j ∈ is, ∀ o, (j.transport o).isSuccess = false :=
      fun j hj => hfail j (List.mem_cons_of_mem i hj)
    have hnd1 : (idsOf (syncPass st i.now i.transport i.saveOk).1.pendingOperations).Nodup :=
      syncPass_nodup st i.now i.transport i.saveOk hnd
    have IH := ih (syncPass st i.now i.transport i.saveOk).1 hnd1 hftl
    have hM : MAX_RETRY_ATTEMPTS = 5 := rfl
    rw [runSync_cons]
    refine ⟨?_, ?_, ?_⟩
    · intro hx
      obtain ⟨h01, h02⟩ := syncPass_occs_nil st i.now i.transport i.saveOk x hx
      obtain ⟨ht0, hr0⟩ := IH.1 h01
      rw [totalAttempts_cons, h02, ht0]
      exact ⟨rfl, hr0⟩
    · intro op hx
      obtain ⟨a, ha_eq, ha1, hamax, hafter⟩ :=
        syncPass_fail_one st i.now i.transport i.saveOk x op hnd hf1 hx
      rw [totalAttempts_cons, ha_eq]
      rcases hafter with hnil | ⟨op', hocc', hrc', himp'⟩
      · obtain ⟨ht0, hr0⟩ := IH.1 hnil
        rw [ht0]
        exact ⟨by omega, Or.inl hr0⟩
      · obtain ⟨hbound', hfinal'⟩ := IH.2.1 op' hocc'
        constructor
        · omega
        · rcases hfinal' with hnil2 | ⟨op'', heq'', hrc'', himp''⟩
          · exact Or.inl hnil2
          · exact Or.inr ⟨op'', heq'', by omega, fun hlt => by omega⟩
    · intro pr hpr
      rcases List.mem_cons.mp hpr with h | h
      · rw [h]
        exact syncPass_no_success st i.now i.transport i.saveOk hf1
      · exact IH.2.2 pr h

/-- Claim C2: An operation whose transport attempt fails on every try is
attempted at most `MAX_RETRY_ATTEMPTS = 5` times in total across sync
passes; no pass ever reports success for it; after any run it is
either removed or still queued once with `retryCount` equal to the
attempts made and below the ceiling; an operation at or above the
ceiling at the start of an iteration is removed without a further
attempt; and an id once absent is never re-added (so removal happens
at most once). -/
theorem C2_retry_ceiling (st : RState) (is : List SyncInput) (x : String)
    (op0 : PendingOperation)
    (hnd : (idsOf st.pendingOperations).Nodup)
    (hfail : ∀ i ∈ is, ∀ o, (i.transport o).isSuccess = false)
    (hx : occs x st.pendingOperations = [op0]) (hrc : op0.retryCount = 0) :
    totalAttempts x (runSync st is).2 ≤ MAX_RETRY_ATTEMPTS ∧
    (∀ pr ∈ (runSync st is).2, x ∉ pr.successfulIds) ∧
    (occs x (runSync st is).1.pendingOperations = [] ∨
      ∃ op', occs x (runSync st is).1.pendingOperations = [op'] ∧
        op'.retryCount = totalAttempts x (runSync st is).2 ∧
        op'.retryCount < MAX_RETRY_ATTEMPTS) ∧
    (∀ (tr : PendingOperation → TransportOutcome) (n : Int) (op : PendingOperation),
      MAX_RETRY_ATTEMPTS ≤ op.retryCount →
      stepOp tr n op
        = { newOp := op, attempted := false, succeeded := false, failedMark := true }) ∧
    (∀ (s : RState) (n : Int) (tr : PendingOperation → TransportOutcome) (sv : Bool),
      occs x s.pendingOperations = [] →
      occs x (syncPendingOperations s n tr sv).pendingOperations = []) := by
  obtain ⟨hA, hB, hC⟩ := runSync_fail_bound x is st hnd hfail
  obtain ⟨hbound, hfinal⟩ := hB op0 hx
  have hM : MAX_RETRY_ATTEMPTS = 5 := rfl
  refine ⟨by omega, ?_, ?_, fun tr n op h => stepOp_max tr n op h, ?_⟩
  · intro pr hpr
    rw [hC pr hpr]
    simp
  · rcases hfinal with h | ⟨op', h1, h2, h3⟩
    · exact Or.inl h
    · exact Or.inr ⟨op', h1, by omega, by omega⟩
  · intro s n tr sv hnil
    exact (syncPass_occs_nil s n tr sv x hnil).1

/-- The always-failing operation of the retry-ceiling scenario. -/
def opC2 : PendingOperation :=
  { id := "c2", endpoint := "/w", method := Method.post, body := "b",
    timestamp := 0, retryCount := 0, priority := Priority.high }

/-- Online state holding only the retry-ceiling scenario operation. -/
def stC2 : RState :=
  { isOnline := true, pendingOperations := [opC2], syncInProgress := false,
    lastSyncAttempt := 0, store := [opC2], mirror := [] }

/-- A transport that always fails with a 500 response. -/
def trFailW : PendingOperation → TransportOutcome :=
  fun _ => TransportOutcome.resp 500 none (some "err")

/-- Witness for C2: a concrete two-pass failing run attempts the
operation at most five times. -/
theorem C2_retry_ceiling_witness :
    totalAttempts "c2"
        (runSync stC2 [⟨6000, trFailW, true⟩, ⟨20000, trFailW, true⟩]).2
      ≤ MAX_RETRY_ATTEMPTS :=
  (C2_retry_ceiling stC2 [⟨6000, trFailW, true⟩, ⟨20000, trFailW, true⟩] "c2" opC2
    (by decide)
    (by
      intro i hi o
      rcases List.mem_cons.mp hi with h | h
      · rw [h]
        rfl
      · rcases List.mem_cons.mp h with h2 | h2
        · rw [h2]
          rfl
        · exact absurd h2 (List.not_mem_nil i))
    (by decide) rfl).1

end SyncFit
